import Mathlib

/-!
Shallow embedding of the Momentum practice dashboard (piano-portfolio,
`scr/App.jsx`).  Timestamps are modelled as epoch milliseconds (`Int`,
JavaScript `Date.getTime()`), calendar days as integer day numbers
(`dayOf`, the UTC day used by `toISOString().split('T')[0]`), and
durations/averages as exact rationals (`Rat`), replacing JavaScript
floating point arithmetic.
-/

namespace Momentum

/-- Milliseconds per calendar day. -/
def msPerDay : Int := 86400000

/-- Calendar day number of a millisecond timestamp (the UTC date that
`toISOString` prints, i.e. floor division by `msPerDay`). -/
def dayOf (ts : Int) : Int := Int.fdiv ts msPerDay

/-- A session record, as built in `App.jsx` from CSV rows
(`{id: d.start, start: new Date(d.start), duration: d.duration, source: 'csv'}`)
or from calendar events. `start` is the epoch-millisecond timestamp
(`start.getTime()`), `duration` is in seconds. -/
structure Session where
  id : String
  start : Int
  duration : Rat
  source : String
deriving DecidableEq

/-- Sorting by start timestamp ascending, the `sort((a, b) => a.start - b.start)`
calls in `chartData` and `handleSync`. -/
def sortSessions (l : List Session) : List Session :=
  l.insertionSort (fun a b => a.start ≤ b.start)

/-- Day numbers from `startDay` through `today` inclusive: the
`while (curr <= today)` loop of `chartData` that seeds `dayMap`. -/
def dayRange (startDay today : Int) : List Int :=
  (List.range (today - startDay + 1).toNat).map (fun i => startDay + Int.ofNat i)

/-- Total seconds played on day `d`: the value accumulated into `dayMap`
for that day's date string by the `sorted.forEach` loop (order of the
additions is immaterial in `Rat`). -/
def dailyTotal (sessions : List Session) (d : Int) : Rat :=
  ((sessions.filter (fun s => dayOf s.start == d)).map Session.duration).sum

/-- One point of the derived day-series (`dataPoints` entry in `chartData`):
the date, the running average so far, and that day's play total.  The
display-only `formattedDate` field is omitted. -/
structure DayPoint where
  date : Int
  average : Rat
  dailyPlay : Rat
deriving DecidableEq

/-- The cumulative-average loop of `chartData`: walks the seeded days in
order carrying `cumulativeSeconds` (`cum`) and `daysElapsed` (`n`), pushing
`{date, average := cum / daysElapsed, dailyPlay}` for each day. -/
def buildPoints (totals : Int → Rat) : List Int → Rat → Nat → List DayPoint
  | [], _, _ => []
  | d :: ds, cum, n =>
    { date := d
      average := (cum + totals d) / ((n + 1 : Nat) : Rat)
      dailyPlay := totals d } :: buildPoints totals ds (cum + totals d) (n + 1)

/-- The `chartData` memo: `sessions.length === 0` short-circuits to `[]`;
otherwise the sessions are sorted, the first sorted session's day
(`sorted[0].start`, read here through `head?`) through `today` is seeded,
and the cumulative average series is produced. -/
def chartData (today : Int) (sessions : List Session) : List DayPoint :=
  if sessions.isEmpty then []
  else
    match (sortSessions sessions).head? with
    | none => []
    | some s0 => buildPoints (dailyTotal sessions) (dayRange (dayOf s0.start) today) 0 0

/-- The range-selector tabs `['1D', '7D', '30D', '1Y', 'MAX']`. -/
inductive Tab
  | d1
  | d7
  | d30
  | y1
  | max
deriving DecidableEq

/-- The `daysToSubtract` assignments of `filteredData` (1, 7, 30, 365;
`MAX` returns early and never uses the value). -/
def daysToSubtract : Tab → Int
  | .d1 => 1
  | .d7 => 7
  | .d30 => 30
  | .y1 => 365
  | .max => 0

/-- The `filteredData` memo: empty chart short-circuits to `[]`, `MAX`
returns the whole series, any other tab keeps entries whose date is at
least `today - daysToSubtract` (the date-string comparison `d.date >=
cutoffStr` agrees with day-number order). -/
def filteredData (today : Int) (tab : Tab) (cd : List DayPoint) : List DayPoint :=
  if cd.isEmpty then []
  else if tab = Tab.max then cd
  else cd.filter (fun p => decide (today - daysToSubtract tab ≤ p.date))

/-- The header's `startPrice`: first filtered entry's average, `0` when empty. -/
def startPrice (fd : List DayPoint) : Rat :=
  match fd.head? with
  | some p => p.average
  | none => 0

/-- The header's `currentPrice`: last filtered entry's average (`fd[fd.length - 1]`),
`0` when empty. -/
def currentPrice (fd : List DayPoint) : Rat :=
  match fd.getLast? with
  | some p => p.average
  | none => 0

/-- The trend flag `isProfit = currentPrice >= startPrice`. -/
def isProfit (fd : List DayPoint) : Bool :=
  decide (startPrice fd ≤ currentPrice fd)

/-- The trend colour: Tailwind green-500 when profitable, red-500 otherwise. -/
def trendColor (fd : List DayPoint) : String :=
  if isProfit fd then "#22c55e" else "#ef4444"

/-- The delta-pill magnitude `Math.abs(currentPrice - startPrice)`. -/
def deltaMagnitude (fd : List DayPoint) : Rat :=
  |currentPrice fd - startPrice fd|

/-- A fetched calendar event as `handleSync` reads it: the identifier and
the optional `start.dateTime` / `end.dateTime` fields (epoch ms; `none`
models a missing date-time, e.g. an all-day event). -/
structure GEvent where
  id : String
  startDateTime : Option Int
  endDateTime : Option Int
deriving DecidableEq

/-- The per-event mapper of `handleSync`: events lacking a start or end
date-time map to `null` (here `none`); otherwise a google-sourced session
with `duration = (end - start) / 1000` seconds. -/
def eventToSession (e : GEvent) : Option Session :=
  match e.startDateTime, e.endDateTime with
  | some s, some en =>
    some { id := e.id, start := s, duration := ((en - s : Int) : Rat) / 1000, source := "google" }
  | _, _ => none

/-- The `events.result.items.map(...).filter(Boolean)` pipeline. -/
def processEvents (events : List GEvent) : List Session :=
  events.filterMap eventToSession

/-- The `setSessions(prev => ...)` merge of `handleSync`: fetched records
whose start timestamp already occurs in `prev` are dropped, the rest are
appended, and the whole collection is re-sorted by start ascending. -/
def mergeSessions (prev newSessions : List Session) : List Session :=
  let existingIds := prev.map Session.start
  let uniqueNew := newSessions.filter (fun n => !(existingIds.contains n.start))
  sortSessions (prev ++ uniqueNew)

/-- An entry of the calendar list returned by `calendarList.list()`. -/
structure CalendarEntry where
  id : String
  summary : String
deriving DecidableEq

/-- The configured calendar name. -/
def TARGET_CALENDAR_NAME : String := "ATracker"

/-- The case-insensitive calendar lookup
`calList.result.items.find(c => c.summary.toLowerCase() === TARGET_CALENDAR_NAME.toLowerCase())`. -/
def findTargetCalendar (items : List CalendarEntry) : Option CalendarEntry :=
  items.find? (fun c => c.summary.toLower == TARGET_CALENDAR_NAME.toLower)

/-- The mutable state `handleSync` touches: the session collection, the
busy flag, and the list of `alert(...)` notices shown so far. -/
structure AppState where
  sessions : List Session
  isSyncing : Bool
  alerts : List String
deriving DecidableEq

/-- The body of `handleSync` after `setIsSyncing(true)`, with the two
awaited calendar-service calls supplied as oracle results (`Except` error
models a thrown rejection caught by the `catch` block).  Every path ends
with the busy flag cleared, matching the `finally`/early-return clears. -/
def handleSync (st : AppState) (calListResult : Except String (List CalendarEntry))
    (eventsResult : Except String (List GEvent)) : AppState :=
  match calListResult with
  | .error _ =>
    { st with alerts := st.alerts ++ ["Failed to sync. Check console."], isSyncing := false }
  | .ok items =>
    match findTargetCalendar items with
    | none =>
      { st with alerts := st.alerts ++ ["Calendar \"ATracker\" not found."], isSyncing := false }
    | some _ =>
      match eventsResult with
      | .error _ =>
        { st with alerts := st.alerts ++ ["Failed to sync. Check console."], isSyncing := false }
      | .ok events =>
        { st with sessions := mergeSessions st.sessions (processEvents events),
                  isSyncing := false }

/-! ## Concrete datasets used by the spec's scenarios -/

/-- Session on day 0 with 600 seconds of play (the scenario's day 1). -/
def csvSessionA : Session :=
  { id := "2025-12-17", start := 0, duration := 600, source := "csv" }

/-- Session on day 1 with 0 seconds of play (the scenario's day 2, today). -/
def csvSessionB : Session :=
  { id := "2025-12-18", start := 86400000, duration := 0, source := "csv" }

/-- Filtered series whose first average is 300 and last average is 200. -/
def exampleTrendSeries : List DayPoint :=
  [{ date := 0, average := 300, dailyPlay := 300 },
   { date := 1, average := 200, dailyPlay := 100 }]

/-! ## Helper lemmas -/

lemma sortSessions_perm (l : List Session) : (sortSessions l).Perm l :=
  List.perm_insertionSort _ l

lemma sortSessions_sorted (l : List Session) :
    (sortSessions l).Sorted (fun a b => a.start ≤ b.start) := by
  haveI : IsTotal Session (fun a b => a.start ≤ b.start) :=
    ⟨fun a b => Int.le_total a.start b.start⟩
  haveI : IsTrans Session (fun a b => a.start ≤ b.start) :=
    ⟨fun _ _ _ h1 h2 => le_trans h1 h2⟩
  exact List.sorted_insertionSort _ l

lemma buildPoints_length (t : Int → Rat) :
    ∀ (ds : List Int) (cum : Rat) (n : Nat), (buildPoints t ds cum n).length = ds.length
  | [], _, _ => rfl
  | d :: ds, cum, n => by
    simp [buildPoints, buildPoints_length t ds]

lemma buildPoints_map_date (t : Int → Rat) :
    ∀ (ds : List Int) (cum : Rat) (n : Nat), (buildPoints t ds cum n).map DayPoint.date = ds
  | [], _, _ => rfl
  | d :: ds, cum, n => by
    simp [buildPoints, buildPoints_map_date t ds]

lemma buildPoints_map_dailyPlay (t : Int → Rat) :
    ∀ (ds : List Int) (cum : Rat) (n : Nat),
      (buildPoints t ds cum n).map DayPoint.dailyPlay = ds.map t
  | [], _, _ => rfl
  | d :: ds, cum, n => by
    simp [buildPoints, buildPoints_map_dailyPlay t ds]

lemma buildPoints_dailyPlay_of_mem (t : Int → Rat) :
    ∀ (ds : List Int) (cum : Rat) (n : Nat) (p : DayPoint),
      p ∈ buildPoints t ds cum n → p.dailyPlay = t p.date
  | [], _, _, _, h => by simp [buildPoints] at h
  | d :: ds, cum, n, p, h => by
    rcases (List.mem_cons).mp h with h | h
    · subst h; rfl
    · exact buildPoints_dailyPlay_of_mem t ds _ _ p h

lemma buildPoints_getElem (t : Int → Rat) :
    ∀ (ds : List Int) (cum : Rat) (n k : Nat) (d : Int), ds[k]? = some d →
      (buildPoints t ds cum n)[k]? = some
        { date := d
          average := (cum + ((ds.take (k + 1)).map t).sum) / ((n + k + 1 : Nat) : Rat)
          dailyPlay := t d }
  | [], _, _, k, d, hd => by simp at hd
  | d0 :: ds, cum, n, 0, d, hd => by
    obtain rfl : d0 = d := by simpa using hd
    simp [buildPoints]
  | d0 :: ds, cum, n, k + 1, d, hd => by
    have hd' : ds[k]? = some d := by simpa using hd
    have hc : (n + 1 + k + 1 : Nat) = n + (k + 1) + 1 := by omega
    simp only [buildPoints, List.getElem?_cons_succ]
    rw [buildPoints_getElem t ds (cum + t d0) (n + 1) k d hd', hc,
      List.take_succ_cons, List.map_cons, List.sum_cons, add_assoc]

lemma dayRange_length (a b : Int) : (dayRange a b).length = (b - a + 1).toNat := by
  simp only [dayRange, List.length_map, List.length_range]

lemma dayRange_sorted (a b : Int) : (dayRange a b).Sorted (· < ·) := by
  simp only [dayRange]
  refine List.Pairwise.map _ ?_ (List.pairwise_lt_range _)
  intro x y hxy
  exact add_lt_add_left (Int.ofNat_lt.mpr hxy) a

/-- Rewriting `chartData` once the sorted head is known. -/
lemma chartData_eq_buildPoints (today : Int) (sessions : List Session) (s0 : Session)
    (hh : (sortSessions sessions).head? = some s0) :
    chartData today sessions
      = buildPoints (dailyTotal sessions) (dayRange (dayOf s0.start) today) 0 0 := by
  have hne : ¬sessions.isEmpty := by
    intro h
    rw [List.isEmpty_iff] at h
    subst h
    simp [sortSessions, List.insertionSort] at hh
  simp [chartData, hne, hh]

/-- The running average of the `k`-th chart point is the mean of the first
`k + 1` daily totals. -/
lemma chartData_average (today : Int) (sessions : List Session) (n : Nat) (p : DayPoint)
    (hp : (chartData today sessions)[n]? = some p) :
    p.average
      = (((chartData today sessions).take (n + 1)).map DayPoint.dailyPlay).sum
          / ((n + 1 : Nat) : Rat) := by
  by_cases hemp : sessions.isEmpty
  · simp [chartData, hemp] at hp
  · cases hh : (sortSessions sessions).head? with
    | none =>
      simp [chartData, hemp, hh] at hp
    | some s0 =>
      rw [chartData_eq_buildPoints today sessions s0 hh] at hp ⊢
      have hlt : n < (buildPoints (dailyTotal sessions)
          (dayRange (dayOf s0.start) today) 0 0).length :=
        (List.getElem?_eq_some.mp hp).1
      have hlt' : n < (dayRange (dayOf s0.start) today).length := by
        rwa [buildPoints_length] at hlt
      have hd := List.getElem?_eq_getElem hlt'
      rw [buildPoints_getElem _ _ _ _ _ _ hd] at hp
      have hp' := Option.some.inj hp
      rw [List.map_take, buildPoints_map_dailyPlay, ← List.map_take, ← hp']
      norm_num

/-! ## Claim theorems -/

/-- Deduplication of a single fetched record against the existing starts. -/
lemma filter_singleton_dedup (prev : List Session) (r : Session) :
    [r].filter (fun n => !((prev.map Session.start).contains n.start))
      = if r.start ∈ prev.map Session.start then [] else [r] := by
  by_cases hm : r.start ∈ prev.map Session.start
  · rw [if_pos hm, List.filter_cons]
    have hc : ((prev.map Session.start).contains r.start) = true := List.elem_iff.mpr hm
    simp only [hc, Bool.not_true, Bool.false_eq_true, if_false, List.filter_nil]
  · rw [if_neg hm, List.filter_cons]
    have hc : ((prev.map Session.start).contains r.start) = false := by
      by_contra hne
      exact hm (List.elem_iff.mp (Bool.of_not_eq_false hne))
    simp only [hc, Bool.not_false, if_true, List.filter_nil]

/-- C3: merging drops a fetched record exactly when its start timestamp
already occurs among the existing records' start timestamps (the size is
then unchanged, a no-op), and otherwise appends it; in general the merged
collection is a permutation of the existing records plus the fetched
records whose start timestamp is new. -/
theorem merge_dedup_spec (prev newSessions : List Session) (r : Session) :
    (mergeSessions prev newSessions).Perm
      (prev ++ newSessions.filter (fun n => !((prev.map Session.start).contains n.start)))
    ∧ (mergeSessions prev [r]).length
        = (if r.start ∈ prev.map Session.start then prev.length else prev.length + 1)
    ∧ (r.start ∉ prev.map Session.start → r ∈ mergeSessions prev [r]) := by
  have hperm : ∀ ns : List Session, (mergeSessions prev ns).Perm
      (prev ++ ns.filter (fun n => !((prev.map Session.start).contains n.start))) :=
    fun ns => sortSessions_perm _
  refine ⟨hperm newSessions, ?_, ?_⟩
  · rw [(hperm [r]).length_eq, List.length_append, filter_singleton_dedup]
    by_cases hm : r.start ∈ prev.map Session.start
    · simp [hm]
    · simp [hm]
  · intro hm
    have hr : r ∈ prev ++ [r].filter (fun n => !((prev.map Session.start).contains n.start)) := by
      rw [filter_singleton_dedup, if_neg hm]
      exact List.mem_append.mpr (Or.inr (List.mem_singleton.mpr rfl))
    exact (hperm [r]).mem_iff.mpr hr

/-- The one-record existing collection used by the C3 witness. -/
def prevOne : List Session :=
  [{ id := "a", start := 0, duration := 10, source := "csv" }]

/-- A fetched record duplicating `prevOne`'s start timestamp. -/
def dupRecord : Session :=
  { id := "b", start := 0, duration := 20, source := "google" }

/-- A fetched record with a new start timestamp. -/
def freshRecord : Session :=
  { id := "c", start := 1, duration := 30, source := "google" }

/-- C3 witness: with one existing record starting at 0, merging a record
that also starts at 0 keeps the size at 1, and a record starting at 1 is
appended and lands in the merged collection. -/
theorem merge_dedup_witness :
    freshRecord.start ∉ prevOne.map Session.start
    ∧ (mergeSessions prevOne [dupRecord]).length
        = (if dupRecord.start ∈ prevOne.map Session.start
            then prevOne.length else prevOne.length + 1)
    ∧ freshRecord ∈ mergeSessions prevOne [freshRecord] :=
  ⟨by decide,
   (merge_dedup_spec prevOne [] dupRecord).2.1,
   (merge_dedup_spec prevOne [] freshRecord).2.2 (by decide)⟩

/-- C8: after every merge the resulting collection is sorted by start
timestamp ascending. -/
theorem merge_sorted_spec (prev newSessions : List Session) :
    (mergeSessions prev newSessions).Sorted (fun a b => a.start ≤ b.start) :=
  sortSessions_sorted _

/-- C4: filtering with the `MAX` tab returns the whole day-series
unchanged; filtering with a lookback tab of `daysToSubtract` days keeps
exactly the entries whose date is at least `today` minus that many days,
and every filtered result is a sublist (original order) of the series. -/
theorem filteredData_range_spec (today : Int) (cd : List DayPoint) (tab : Tab)
    (htab : tab ≠ Tab.max) :
    filteredData today Tab.max cd = cd
    ∧ filteredData today tab cd
        = cd.filter (fun p => decide (today - daysToSubtract tab ≤ p.date))
    ∧ (filteredData today tab cd).Sublist cd := by
  refine ⟨?_, ?_, ?_⟩
  · cases cd <;> simp [filteredData]
  · cases cd with
    | nil => simp [filteredData]
    | cons p ps => simp [filteredData, htab]
  · cases cd with
    | nil => simp [filteredData]
    | cons p ps =>
      simp only [filteredData, List.isEmpty_cons, Bool.false_eq_true, if_false, htab,
        if_neg htab]
      exact List.filter_sublist _

/-- C4 witness: with today = 10 and a two-point series at dates 0 and 9,
the 7-day tab keeps only the date-9 entry and `MAX` keeps everything. -/
theorem filteredData_range_witness :
    Tab.d7 ≠ Tab.max
    ∧ filteredData 10 Tab.max
        [{ date := 0, average := 1, dailyPlay := 1 },
         { date := 9, average := 2, dailyPlay := 2 }]
        = [{ date := 0, average := 1, dailyPlay := 1 },
           { date := 9, average := 2, dailyPlay := 2 }]
    ∧ filteredData 10 Tab.d7
        [{ date := 0, average := 1, dailyPlay := 1 },
         { date := 9, average := 2, dailyPlay := 2 }]
        = ([{ date := 0, average := 1, dailyPlay := 1 },
            { date := 9, average := 2, dailyPlay := 2 }]).filter
            (fun p => decide (10 - daysToSubtract Tab.d7 ≤ p.date)) :=
  ⟨by decide,
   (filteredData_range_spec 10
      [{ date := 0, average := 1, dailyPlay := 1 },
       { date := 9, average := 2, dailyPlay := 2 }] Tab.d7 (by decide)).1,
   (filteredData_range_spec 10
      [{ date := 0, average := 1, dailyPlay := 1 },
       { date := 9, average := 2, dailyPlay := 2 }] Tab.d7 (by decide)).2.1⟩

/-- C5: the trend indicator compares the first and last averages of the
filtered series: it is "profit" (green styling) exactly when the last
average is at least the first, "negative" (red styling) exactly when the
delta is negative, and the displayed delta magnitude is the absolute
difference; on a series running from average 300 down to 200 it renders
negative with delta magnitude 100. -/
theorem trend_indicator_spec (fd : List DayPoint) (pfirst plast : DayPoint)
    (h1 : fd.head? = some pfirst) (h2 : fd.getLast? = some plast) :
    (isProfit fd = true ↔ pfirst.average ≤ plast.average)
    ∧ (isProfit fd = false ↔ plast.average < pfirst.average)
    ∧ trendColor fd = (if pfirst.average ≤ plast.average then "#22c55e" else "#ef4444")
    ∧ deltaMagnitude fd = |plast.average - pfirst.average|
    ∧ isProfit exampleTrendSeries = false
    ∧ trendColor exampleTrendSeries = "#ef4444"
    ∧ deltaMagnitude exampleTrendSeries = 100 := by
  have hs : startPrice fd = pfirst.average := by simp [startPrice, h1]
  have hc : currentPrice fd = plast.average := by simp [currentPrice, h2]
  refine ⟨?_, ?_, ?_, ?_, by decide, by decide, ?_⟩
  · simp [isProfit, hs, hc]
  · simp [isProfit, hs, hc]
  · by_cases hle : pfirst.average ≤ plast.average <;>
      simp [trendColor, isProfit, hs, hc, hle]
  · simp [deltaMagnitude, hs, hc]
  · norm_num [deltaMagnitude, currentPrice, startPrice, exampleTrendSeries]

/-- C5 witness: the 300-then-200 series has head 300 and last 200, and
the theorem applies to it. -/
theorem trend_indicator_witness :
    exampleTrendSeries.head? = some { date := 0, average := 300, dailyPlay := 300 }
    ∧ (isProfit exampleTrendSeries = true ↔
        ({ date := 0, average := 300, dailyPlay := 300 } : DayPoint).average
          ≤ ({ date := 1, average := 200, dailyPlay := 100 } : DayPoint).average) :=
  ⟨by decide,
   (trend_indicator_spec exampleTrendSeries
      { date := 0, average := 300, dailyPlay := 300 }
      { date := 1, average := 200, dailyPlay := 100 }
      (by decide) (by decide)).1⟩

/-- C6: a fetched event lacking a start or an end date-time is mapped to
nothing, so the processed batch and hence the merged collection (and its
length) are unchanged by that event. -/
theorem malformed_event_spec (e : GEvent)
    (h : e.startDateTime = none ∨ e.endDateTime = none)
    (es1 es2 : List GEvent) (prev : List Session) :
    eventToSession e = none
    ∧ processEvents (es1 ++ e :: es2) = processEvents (es1 ++ es2)
    ∧ (mergeSessions prev (processEvents (es1 ++ e :: es2))).length
        = (mergeSessions prev (processEvents (es1 ++ es2))).length := by
  have hn : eventToSession e = none := by
    cases h1 : e.startDateTime <;> cases h2 : e.endDateTime <;>
      simp_all [eventToSession]
  have hp : processEvents (es1 ++ e :: es2) = processEvents (es1 ++ es2) := by
    simp [processEvents, List.filterMap_append, List.filterMap_cons, hn]
  exact ⟨hn, hp, by rw [hp]⟩

/-- C6 witness: an event with a start but no end date-time is dropped and
merging the batch around it is unaffected. -/
theorem malformed_event_witness :
    (({ id := "x", startDateTime := some 0, endDateTime := none } : GEvent).endDateTime = none)
    ∧ eventToSession { id := "x", startDateTime := some 0, endDateTime := none } = none
    ∧ processEvents ([] ++ ({ id := "x", startDateTime := some 0, endDateTime := none } : GEvent) :: [])
        = processEvents ([] ++ []) :=
  ⟨rfl,
   (malformed_event_spec { id := "x", startDateTime := some 0, endDateTime := none }
      (Or.inr rfl) [] [] []).1,
   (malformed_event_spec { id := "x", startDateTime := some 0, endDateTime := none }
      (Or.inr rfl) [] [] []).2.1⟩

/-- C7: when the calendar-list call fails, no calendar matches the target
name, or the events call fails, the session collection is unchanged and
exactly one user-visible notice is added; the busy flag is cleared at the
end of every sync, whatever the outcome. -/
theorem handleSync_failure_spec (st : AppState)
    (cal : Except String (List CalendarEntry)) (ev : Except String (List GEvent))
    (hfail : (∃ msg, cal = Except.error msg)
      ∨ (∃ items, cal = Except.ok items ∧ findTargetCalendar items = none)
      ∨ (∃ msg, ev = Except.error msg)) :
    (handleSync st cal ev).sessions = st.sessions
    ∧ (handleSync st cal ev).alerts.length = st.alerts.length + 1
    ∧ ∀ (cal2 : Except String (List CalendarEntry)) (ev2 : Except String (List GEvent)),
        (handleSync st cal2 ev2).isSyncing = false := by
  have hbusy : ∀ (cal2 : Except String (List CalendarEntry))
      (ev2 : Except String (List GEvent)), (handleSync st cal2 ev2).isSyncing = false := by
    intro cal2 ev2
    rcases cal2 with msg | items
    · rfl
    · cases hf : findTargetCalendar items with
      | none => simp [handleSync, hf]
      | some c => rcases ev2 with m | evs <;> simp [handleSync, hf]
  rcases hfail with ⟨msg, rfl⟩ | ⟨items, rfl, hfind⟩ | ⟨msg, rfl⟩
  · exact ⟨rfl, by simp [handleSync], hbusy⟩
  · exact ⟨by simp [handleSync, hfind], by simp [handleSync, hfind], hbusy⟩
  · rcases cal with m | items
    · exact ⟨rfl, by simp [handleSync], hbusy⟩
    · cases hf : findTargetCalendar items with
      | none => exact ⟨by simp [handleSync, hf], by simp [handleSync, hf], hbusy⟩
      | some c => exact ⟨by simp [handleSync, hf], by simp [handleSync, hf], hbusy⟩

/-- C7 witness: a failed calendar-list call on a one-session state leaves
the session untouched, adds one notice, and the busy flag ends false. -/
theorem handleSync_failure_witness :
    (handleSync { sessions := [csvSessionA], isSyncing := true, alerts := [] }
        (Except.error "network down") (Except.ok [])).sessions = [csvSessionA]
    ∧ (handleSync { sessions := [csvSessionA], isSyncing := true, alerts := [] }
        (Except.error "network down") (Except.ok [])).alerts.length = 0 + 1 :=
  ⟨(handleSync_failure_spec { sessions := [csvSessionA], isSyncing := true, alerts := [] }
      (Except.error "network down") (Except.ok [])
      (Or.inl ⟨"network down", rfl⟩)).1,
   (handleSync_failure_spec { sessions := [csvSessionA], isSyncing := true, alerts := [] }
      (Except.error "network down") (Except.ok [])
      (Or.inl ⟨"network down", rfl⟩)).2.1⟩

/-- C9: an empty session collection yields an empty day-series, and the
filtered series for every tab is then empty as well. -/
theorem empty_sessions_spec (today : Int) (tab : Tab) :
    chartData today [] = [] ∧ filteredData today tab (chartData today []) = [] := by
  constructor
  · rfl
  · rfl

/-- C10: a fetched event with both a start and an end date-time becomes a
google-sourced session starting at the start timestamp with duration
`(end - start) / 1000` seconds. -/
theorem event_duration_spec (e : GEvent) (s en : Int)
    (hs : e.startDateTime = some s) (he : e.endDateTime = some en) :
    eventToSession e = some
      { id := e.id, start := s, duration := ((en - s : Int) : Rat) / 1000,
        source := "google" } := by
  simp [eventToSession, hs, he]

/-- C10 witness: a 90-second event (0 ms to 90000 ms) becomes a session of
`90000 / 1000` seconds. -/
theorem event_duration_witness :
    (({ id := "ev1", startDateTime := some 0, endDateTime := some 90000 } : GEvent).startDateTime
        = some 0)
    ∧ eventToSession { id := "ev1", startDateTime := some 0, endDateTime := some 90000 }
        = some
          { id := "ev1", start := 0, duration := ((90000 - 0 : Int) : Rat) / 1000,
            source := "google" } :=
  ⟨rfl,
   event_duration_spec { id := "ev1", startDateTime := some 0, endDateTime := some 90000 }
     0 90000 rfl rfl⟩

/-- C1: for a non-empty collection whose earliest session start is `m`
(with `m`'s day not after today), the day-series dates are exactly the
consecutive days from `dayOf m` through `today` (ascending, no gaps), the
entry count is `(today - dayOf m) + 1`, and any day with no session has a
zero daily total. -/
theorem chartData_day_series_spec (today : Int) (sessions : List Session) (m : Int)
    (hmem : m ∈ sessions.map Session.start)
    (hmin : ∀ s ∈ sessions, m ≤ s.start)
    (htoday : dayOf m ≤ today) :
    (chartData today sessions).map DayPoint.date = dayRange (dayOf m) today
    ∧ (chartData today sessions).length = (today - dayOf m + 1).toNat
    ∧ ((chartData today sessions).map DayPoint.date).Sorted (· < ·)
    ∧ ∀ p ∈ chartData today sessions,
        (∀ s ∈ sessions, dayOf s.start ≠ p.date) → p.dailyPlay = 0 := by
  obtain ⟨s1, hs1, hs1e⟩ := List.mem_map.mp hmem
  have hne : sessions ≠ [] := by
    rintro rfl
    exact absurd hs1 (List.not_mem_nil s1)
  have hsortne : sortSessions sessions ≠ [] := by
    intro h0
    exact hne (List.Perm.eq_nil (h0 ▸ sortSessions_perm sessions).symm)
  cases hh : (sortSessions sessions).head? with
  | none => exact absurd (List.head?_eq_none_iff.mp hh) hsortne
  | some s0 =>
    have hs0head : s0 ∈ (sortSessions sessions).head? := by rw [hh]; rfl
    have hs0mem : s0 ∈ sessions :=
      (sortSessions_perm sessions).mem_iff.mp (List.mem_of_mem_head? hs0head)
    obtain ⟨tl, htl⟩ : ∃ tl, sortSessions sessions = s0 :: tl := by
      cases hcase : sortSessions sessions with
      | nil => exact absurd hcase hsortne
      | cons a l =>
        rw [hcase] at hh
        have ha : a = s0 := by simpa using hh
        exact ⟨l, by rw [ha]⟩
    have hmin0 : ∀ s ∈ sessions, s0.start ≤ s.start := by
      intro s hs
      have hs' : s ∈ s0 :: tl := htl ▸ ((sortSessions_perm sessions).symm.mem_iff.mp hs)
      rcases List.mem_cons.mp hs' with rfl | hs''
      · exact le_refl _
      · exact List.rel_of_sorted_cons (htl ▸ sortSessions_sorted sessions) s hs''
    have h0m : s0.start = m := le_antisymm (hs1e ▸ hmin0 s1 hs1) (hmin s0 hs0mem)
    have hch := chartData_eq_buildPoints today sessions s0 hh
    rw [hch, h0m]
    refine ⟨buildPoints_map_date _ _ _ _, ?_, ?_, ?_⟩
    · rw [buildPoints_length, dayRange_length]
    · rw [buildPoints_map_date]
      exact dayRange_sorted _ _
    · intro p hp hnone
      rw [buildPoints_dailyPlay_of_mem _ _ _ _ p hp]
      have hfil : sessions.filter (fun s => dayOf s.start == p.date) = [] := by
        rw [List.filter_eq_nil_iff]
        intro s hs
        simpa using hnone s hs
      simp [dailyTotal, hfil]

/-- C1 witness: two sessions on days 0 and 1 with today = day 1 give the
two-day series with dates `[0, 1]`. -/
theorem chartData_day_series_witness :
    ((0 : Int) ∈ [csvSessionA, csvSessionB].map Session.start)
    ∧ (chartData 1 [csvSessionA, csvSessionB]).map DayPoint.date = dayRange (dayOf 0) 1
    ∧ (chartData 1 [csvSessionA, csvSessionB]).length = ((1 : Int) - dayOf 0 + 1).toNat :=
  ⟨by decide,
   (chartData_day_series_spec 1 [csvSessionA, csvSessionB] 0
      (by decide) (by decide) (by decide)).1,
   (chartData_day_series_spec 1 [csvSessionA, csvSessionB] 0
      (by decide) (by decide) (by decide)).2.1⟩

/-- C2: the `n`-th day-series entry's cumulative average is the sum of the
first `n + 1` daily totals divided by `n + 1` (rest days included in the
denominator); at the last entry this is the total summed duration divided
by the day count; and the 600-seconds-then-0 two-day dataset yields the
averages `[600, 300]`. -/
theorem chartData_cumulative_average_spec (today : Int) (sessions : List Session)
    (n : Nat) (h : n < (chartData today sessions).length) :
    ((chartData today sessions).get ⟨n, h⟩).average
      = (((chartData today sessions).take (n + 1)).map DayPoint.dailyPlay).sum
          / ((n + 1 : Nat) : Rat)
    ∧ (n = (chartData today sessions).length - 1 →
        ((chartData today sessions).get ⟨n, h⟩).average
          = ((chartData today sessions).map DayPoint.dailyPlay).sum
              / (((chartData today sessions).length : Nat) : Rat))
    ∧ (chartData 1 [csvSessionA, csvSessionB]).map DayPoint.average = [600, 300] := by
  have hp : (chartData today sessions)[n]? = some ((chartData today sessions).get ⟨n, h⟩) := by
    simp [List.getElem?_eq_getElem h]
  have h1 := chartData_average today sessions n _ hp
  refine ⟨h1, ?_, ?_⟩
  · intro hlast
    have hpos : 0 < (chartData today sessions).length := lt_of_le_of_lt (Nat.zero_le n) h
    have hn1 : n + 1 = (chartData today sessions).length := by omega
    rw [h1, hn1, List.take_length]
  · norm_num [chartData, sortSessions, List.insertionSort, List.orderedInsert,
      csvSessionA, csvSessionB, dayOf, msPerDay, dayRange, dailyTotal, buildPoints]

/-- C2 witness: in the two-day dataset the second (last) entry's average
is the mean of both daily totals. -/
theorem chartData_cumulative_average_witness :
    1 < (chartData 1 [csvSessionA, csvSessionB]).length
    ∧ ((chartData 1 [csvSessionA, csvSessionB]).get ⟨1, by decide⟩).average
        = (((chartData 1 [csvSessionA, csvSessionB]).take (1 + 1)).map DayPoint.dailyPlay).sum
            / ((1 + 1 : Nat) : Rat) :=
  ⟨by decide,
   (chartData_cumulative_average_spec 1 [csvSessionA, csvSessionB] 1 (by decide)).1⟩

end Momentum
